import Mathlib

/-!
# Verification of the CPC compressed-state codec and frequent-items sketch

Shallow embedding of `cpc/cpc_compressed_state.go` and (modelled from the
spec, the implementation file being absent from the fragment) the
frequent-items sketch exercised by `frequencies/iterms_sketch_test.go`.

Go machine integers are modelled as `Int` (for `int`, `int16`) and `Nat`
(for `uint64`, with explicit `% 2^w` where a narrowing read matters).
`float64` fields are carried as raw 64-bit patterns (`Nat`); no claim
performs float arithmetic, they are only copied between records.
-/

set_option autoImplicit false

namespace DataSketches

namespace Cpc

/-- Go type `CpcFormat` is an integer-backed enumeration; we keep the raw
ordinal. -/
abbrev CpcFormat := Nat

/-- Format ordinal 0 (`CpcformatEmptyMerged` in the source, sic). -/
def CpcformatEmptyMerged : CpcFormat := 0

/-- Format ordinal 1. -/
def CpcFormatEmptyHip : CpcFormat := 1

/-- Format ordinal 2. -/
def CpcFormatSparseHybridMerged : CpcFormat := 2

/-- Format ordinal 3 (`CpcFormatSparceHybridHip` in the source, sic). -/
def CpcFormatSparceHybridHip : CpcFormat := 3

/-- Embedding of the struct `CpcCompressedState`.  `NumCoupons` is a Go
`uint64` (a `Nat` value `< 2^64`); `NumCsv`, `CsvLengthInts`,
`CwLengthInts`, `LgK`, `FiCol` are Go `int`; `SeedHash` is `int16`;
`Kxp` and `HipEstAccum` are `float64` carried as 64-bit patterns. -/
structure CpcCompressedState where
  CsvIsValid : Bool
  WindowIsValid : Bool
  LgK : Int
  SeedHash : Int
  FiCol : Int
  MergeFlag : Bool -- compliment of HIP Flag (comment from the source)
  NumCoupons : Nat
  Kxp : Nat
  HipEstAccum : Nat
  NumCsv : Int
  CsvStream : List Int
  CsvLengthInts : Int
  CwStream : List Int
  CwLengthInts : Int
deriving DecidableEq, Repr

/-- `preIntsDefs`: preamble space required by each format, in 4-byte ints. -/
def preIntsDefs : List Nat := [2, 2, 4, 8, 4, 8, 6, 10]

/-- IEEE-754 bit pattern of `float64(int(1) << lgK)` on the in-range branch
(0 ≤ lgK < 63, where the Go shift is exact); other inputs are collapsed to
the zero pattern (no claim depends on them). -/
def float64OfPow2 (lgK : Int) : Nat :=
  if 0 ≤ lgK ∧ lgK < 63 then (1023 + lgK.toNat) * 2 ^ 52 else 0

/-- Embedding of `NewCpcCompressedState`. -/
def NewCpcCompressedState (lgK : Int) (seedHash : Int) : CpcCompressedState :=
  { CsvIsValid := false
    WindowIsValid := false
    LgK := lgK
    SeedHash := seedHash
    FiCol := 0
    MergeFlag := false
    NumCoupons := 0
    Kxp := float64OfPow2 lgK
    HipEstAccum := 0
    NumCsv := 0
    CsvStream := []
    CsvLengthInts := 0
    CwStream := []
    CwLengthInts := 0 }

/-- Embedding of the method `getFormat`: builds the ordinal from
`CwLengthInts > 0`, `NumCsv > 0` and, on bit 0, `MergeFlag` itself
(the source sets `ordinal |= 1` when `c.MergeFlag` holds). -/
def getFormat (c : CpcCompressedState) : CpcFormat :=
  let ordinal := 0
  let ordinal := if c.CwLengthInts > 0 then ordinal ||| 4 else ordinal
  let ordinal := if c.NumCsv > 0 then ordinal ||| 2 else ordinal
  let ordinal := if c.MergeFlag then ordinal ||| 1 else ordinal
  ordinal

/-- Embedding of `getDefinedPreInts`.  The Go body indexes the eight-entry
slice `preIntsDefs[format]`, which panics out of bounds; the panic is
modelled as `none`. -/
def getDefinedPreInts (format : CpcFormat) : Option Nat :=
  preIntsDefs.get? format

/-- Embedding of the method `getRequiredSerializedBytes`:
`4 * (preInts + CsvLengthInts + CwLengthInts)`, `none` standing for the
(unreachable) index panic inside `getDefinedPreInts`. -/
def getRequiredSerializedBytes (c : CpcCompressedState) : Option Int :=
  (getDefinedPreInts (getFormat c)).map
    (fun preInts => 4 * ((preInts : Int) + c.CsvLengthInts + c.CwLengthInts))

/-- Spec-side preamble-ints table: the eight ordinals 0..7 map to
2, 2, 4, 8, 4, 8, 6, 10 (§3.2 of the specification). -/
def preIntsSpec : Nat → Int
  | 0 => 2
  | 1 => 2
  | 2 => 4
  | 3 => 8
  | 4 => 4
  | 5 => 8
  | 6 => 6
  | 7 => 10
  | _ => 0

/-- `getFormat` only ever produces ordinals below 8: it ors together
subsets of {4, 2, 1}. -/
theorem getFormat_lt_eight (c : CpcCompressedState) : getFormat c < 8 := by
  unfold getFormat
  dsimp only
  split <;> split <;> split <;> decide

/-- The list lookup in `getDefinedPreInts` succeeds for every ordinal
produced by `getFormat`. -/
theorem getDefinedPreInts_getFormat_isSome (c : CpcCompressedState) :
    (getDefinedPreInts (getFormat c)).isSome := by
  have h := getFormat_lt_eight c
  unfold getDefinedPreInts
  rw [List.get?_eq_getElem?, List.getElem?_eq_getElem (by simpa [preIntsDefs] using h)]
  rfl

/-- The code's list lookup agrees with the spec's table on every ordinal
produced by `getFormat`. -/
theorem getDefinedPreInts_eq_spec (c : CpcCompressedState) :
    getDefinedPreInts (getFormat c) = some (preIntsSpec (getFormat c)).toNat := by
  have h := getFormat_lt_eight c
  interval_cases h : getFormat c <;> rfl

/-! ## The serialized byte image

The preamble accessors (`checkLoPreamble`, `isCompressed`, `getLgK`,
`getSeedHash`, `getFormatOrdinal`, `getNumCoupons`, `getSvLengthInts`,
`getKxP`, `getHipAccum`, `getSvStream`, `checkCapacity`) are code of this
repository that is not in the fragment; they are modelled from the spec
(§4.2 import algorithm, §6.2 byte image).  The image is modelled at the
granularity those accessors read it: named preamble fields plus the total
byte capacity of the buffer. -/

/-- Modelled from the spec: the fields of a serialized CPC image as the
missing preamble accessors deliver them.  `fmtOrd` and `numCouponsWord`
hold raw words whose accessors narrow them (3-bit ordinal, one 32-bit word
for `num_coupons` and for `csv_length_ints` per §6.2); `capacity` is
`len(bytes)`. -/
structure CpcImage where
  loPreambleOk : Bool
  compressedFlag : Bool
  lgK : Int
  seedHash : Int
  fmtOrd : Nat
  numCouponsWord : Nat
  svLengthWord : Nat
  kxpBits : Nat
  hipAccumBits : Nat
  svWords : List Int
  capacity : Nat
deriving DecidableEq, Repr

/-- Modelled from the spec: `checkLoPreamble` validates the fixed low
preamble and fails with `MalformedImage` otherwise (§4.2 step 1). -/
def checkLoPreamble (img : CpcImage) : Bool := img.loPreambleOk

/-- Modelled from the spec: the is-compressed bit of the first word. -/
def isCompressed (img : CpcImage) : Bool := img.compressedFlag

/-- Modelled from the spec: extracts `lg_k` from the preamble. -/
def getLgK (img : CpcImage) : Int := img.lgK

/-- Modelled from the spec: extracts the 16-bit `seed_hash`. -/
def getSeedHash (img : CpcImage) : Int := img.seedHash

/-- Modelled from the spec: the 3-bit format ordinal (§3.2). -/
def getFormatOrdinal (img : CpcImage) : Nat := img.fmtOrd % 8

/-- Modelled from the spec: `num_coupons` occupies one little-endian
32-bit preamble word (§6.2), delivered as a Go `uint64`. -/
def getNumCoupons (img : CpcImage) : Nat := img.numCouponsWord % 2 ^ 32

/-- Modelled from the spec: `csv_length_ints` occupies one 32-bit preamble
word (§6.2), delivered as a Go `int`. -/
def getSvLengthInts (img : CpcImage) : Int := (img.svLengthWord % 2 ^ 32 : Nat)

/-- Modelled from the spec: the two `kxp` words (IEEE-754 double pattern). -/
def getKxP (img : CpcImage) : Nat := img.kxpBits % 2 ^ 64

/-- Modelled from the spec: the two `hip_est_accum` words. -/
def getHipAccum (img : CpcImage) : Nat := img.hipAccumBits % 2 ^ 64

/-- Modelled from the spec: the CSV stream words following the preamble. -/
def getSvStream (img : CpcImage) : List Int := img.svWords

/-- Modelled from the spec: `check_capacity(buf.len, required)` fails with
`CapacityShort` when the buffer is smaller than required (§4.2 step 5). -/
def checkCapacity (capacity : Nat) (required : Int) : Bool :=
  decide ((capacity : Int) ≥ required)

/-- Go conversion `int(x)` of a `uint64` value on a 64-bit platform:
reinterpret modulo `2^64` into the signed range. -/
def intOfUInt64 (x : Nat) : Int :=
  if x % 2 ^ 64 < 2 ^ 63 then (x % 2 ^ 64 : Nat) else (x % 2 ^ 64 : Nat) - 2 ^ 64

/-- Errors surfaced by the codec. -/
inductive CpcError where
  | malformedImage
  | notCompressed
  | capacityShort
deriving DecidableEq, Repr

/-- Outcome of `importFromMemory`: Go's `panic("not implemented")` (and the
out-of-bounds slice index it could in principle hit inside
`getRequiredSerializedBytes`) is a distinct outcome from an error return. -/
inductive ImportResult where
  | ok : CpcCompressedState → ImportResult
  | err : CpcError → ImportResult
  | panics : ImportResult
deriving DecidableEq, Repr

/-- Embedding of `importFromMemory`, following the Go control flow: low
preamble check, compressed check, preamble extraction,
`MergeFlag = (fmtOrd & 1) == 0`, then the format switch whose default arm
panics. -/
def importFromMemory (img : CpcImage) : ImportResult :=
  if ¬ checkLoPreamble img then .err .malformedImage
  else if ¬ isCompressed img then .err .notCompressed
  else
    let lgK := getLgK img
    let seedHash := getSeedHash img
    let state := NewCpcCompressedState lgK seedHash
    let fmtOrd := getFormatOrdinal img
    let format : CpcFormat := fmtOrd
    let state := { state with
      MergeFlag := fmtOrd &&& 1 == 0
      CsvIsValid := fmtOrd &&& 2 > 0
      WindowIsValid := fmtOrd &&& 4 > 0 }
    if format = CpcformatEmptyMerged ∨ format = CpcFormatEmptyHip then
      if ¬ checkCapacity img.capacity 8 then .err .capacityShort
      else .ok state
    else if format = CpcFormatSparseHybridMerged then
      let state := { state with
        NumCoupons := getNumCoupons img
        NumCsv := intOfUInt64 (getNumCoupons img)
        CsvLengthInts := getSvLengthInts img }
      match getRequiredSerializedBytes state with
      | none => .panics
      | some required =>
        if ¬ checkCapacity img.capacity required then .err .capacityShort
        else .ok { state with CsvStream := getSvStream img }
    else if format = CpcFormatSparceHybridHip then
      let state := { state with
        NumCoupons := getNumCoupons img
        NumCsv := intOfUInt64 (getNumCoupons img)
        CsvLengthInts := getSvLengthInts img
        Kxp := getKxP img
        HipEstAccum := getHipAccum img }
      match getRequiredSerializedBytes state with
      | none => .panics
      | some required =>
        if ¬ checkCapacity img.capacity required then .err .capacityShort
        else .ok { state with CsvStream := getSvStream img }
    else .panics

/-! ## The sketch skeleton and `uncompress`

`CpcSketch`, `NewCpcSketch` and `determineCorrectOffset` are code of this
repository that is not in the fragment.  `CpcSketch` and `NewCpcSketch`
are modelled from the spec; `determineCorrectOffset` is, per §9 of the
spec, deliberately unspecified ("do not infer"), so the development is
parametric in it: `uncompress` takes the pure function
`dco : Int → Nat → Int` as an argument. -/

/-- Modelled from the spec: the fields of a live CPC sketch that the
compressed-state layer touches (§4.2 `uncompress` contract).  The
nil-able `sliding_window` and `pair_table` payloads are `Option`s. -/
structure CpcSketch where
  lgK : Int
  seed : Nat
  numCoupons : Nat
  windowOffset : Int
  fiCol : Int
  mergeFlag : Bool
  kxp : Nat
  hipEstAccum : Nat
  slidingWindow : Option (List Int)
  pairTable : Option (List Int)
deriving DecidableEq, Repr

/-- Modelled from the spec: `NewCpcSketch(lgK, seed)` constructs an empty
sketch skeleton; the fragment shows no failure condition, so it always
succeeds (the Go signature still returns an error value). -/
def NewCpcSketch (lgK : Int) (seed : Nat) : Except CpcError CpcSketch :=
  .ok
    { lgK := lgK
      seed := seed
      numCoupons := 0
      windowOffset := 0
      fiCol := 0
      mergeFlag := false
      kxp := float64OfPow2 lgK
      hipEstAccum := 0
      slidingWindow := none
      pairTable := none }

/-- Embedding of the method `getWindowOffset`:
`determineCorrectOffset(LgK, NumCoupons)`, with the missing pure function
passed in as `dco`. -/
def getWindowOffset (dco : Int → Nat → Int) (c : CpcCompressedState) : Int :=
  dco c.LgK c.NumCoupons

/-- Embedding of the method `uncompress`.  The seed-hash comparison is
commented out in the source (`//ThetaUtil.checkSeedHashes(...)`), so no
seed check is performed here either. -/
def uncompress (dco : Int → Nat → Int) (c : CpcCompressedState) (seed : Nat) :
    Except CpcError CpcSketch :=
  match NewCpcSketch c.LgK seed with
  | .error e => .error e
  | .ok sketch =>
    .ok { sketch with
      numCoupons := c.NumCoupons
      windowOffset := getWindowOffset dco c
      fiCol := c.FiCol
      mergeFlag := c.MergeFlag
      kxp := c.Kxp
      hipEstAccum := c.HipEstAccum
      slidingWindow := none
      pairTable := none }

/-! ## Claim theorems for the CPC codec -/

/-- The code's required-bytes computation always succeeds and equals
`4 * (pre_ints(format) + CsvLengthInts + CwLengthInts)` with `pre_ints`
read off the spec's table. -/
theorem getRequiredSerializedBytes_eq (c : CpcCompressedState) :
    getRequiredSerializedBytes c =
      some (4 * (preIntsSpec (getFormat c) + c.CsvLengthInts + c.CwLengthInts)) := by
  unfold getRequiredSerializedBytes
  rw [getDefinedPreInts_eq_spec c]
  have h := getFormat_lt_eight c
  interval_cases h : getFormat c <;> rfl

/-- `int(x)` of a `uint64` value below `2^63` is the value itself. -/
theorem intOfUInt64_of_lt {x : Nat} (h : x < 2 ^ 63) : intOfUInt64 x = (x : Int) := by
  unfold intOfUInt64
  rw [Nat.mod_eq_of_lt (by omega), if_pos h]

/-- The format `getFormat` computes on the state `importFromMemory` built,
`none` when the import did not return a state. -/
def importedFormat (img : CpcImage) : Option CpcFormat :=
  match importFromMemory img with
  | .ok st => some (getFormat st)
  | _ => none

/-- An EMPTY_MERGED image: ordinal 0, minimal capacity. -/
def imgEmptyMerged : CpcImage :=
  { loPreambleOk := true
    compressedFlag := true
    lgK := 10
    seedHash := 0
    fmtOrd := 0
    numCouponsWord := 0
    svLengthWord := 0
    kxpBits := 0
    hipAccumBits := 0
    svWords := []
    capacity := 8 }

/-- A SPARSE_HYBRID_MERGED image: ordinal 2, one coupon, one CSV word. -/
def imgSparseMerged : CpcImage :=
  { loPreambleOk := true
    compressedFlag := true
    lgK := 10
    seedHash := 0
    fmtOrd := 2
    numCouponsWord := 1
    svLengthWord := 1
    kxpBits := 0
    hipAccumBits := 0
    svWords := [7]
    capacity := 36 }

/-- Claim C1: the format ordinal does not survive the import round trip.
Importing an EMPTY_MERGED image (stored ordinal 0) yields a state whose
`getFormat` is 1 (EMPTY_HIP), and importing a SPARSE_HYBRID_MERGED image
(stored ordinal 2) yields a state whose `getFormat` is 3
(SPARSE_HYBRID_HIP): `getFormat` puts `MergeFlag` itself, not its
complement, into bit 0. -/
theorem cpc_c1_import_format_mismatch :
    getFormatOrdinal imgEmptyMerged = CpcformatEmptyMerged ∧
      importedFormat imgEmptyMerged = some CpcFormatEmptyHip ∧
      getFormatOrdinal imgSparseMerged = CpcFormatSparseHybridMerged ∧
      importedFormat imgSparseMerged = some CpcFormatSparceHybridHip := by
  decide

/-- Claim C2: on `cw_length_ints = 0, num_csv = 0, merge_flag = true` the
code's `getFormat` returns ordinal 1 (EMPTY_HIP), not the claimed
EMPTY_MERGED (0); on `cw_length_ints = 0, num_csv > 0, merge_flag = false`
it returns ordinal 2 (SPARSE_HYBRID_MERGED), not the claimed
SPARSE_HYBRID_HIP (3). -/
theorem cpc_c2_getFormat_mismatch :
    getFormat { NewCpcCompressedState 10 0 with MergeFlag := true } = CpcFormatEmptyHip ∧
      CpcFormatEmptyHip ≠ CpcformatEmptyMerged ∧
      getFormat { NewCpcCompressedState 10 0 with
        MergeFlag := false, NumCsv := 1 } = CpcFormatSparseHybridMerged ∧
      CpcFormatSparseHybridMerged ≠ CpcFormatSparceHybridHip := by
  decide

/-- Claim C5: for every state, `getRequiredSerializedBytes` is
`4 × (pre_ints(format) + csv_length_ints + cw_length_ints)` with the table
2, 2, 4, 8, 4, 8, 6, 10, and a SPARSE_HYBRID_HIP state with
`csv_length_ints = 4`, `cw_length_ints = 0` requires 48 bytes. -/
theorem cpc_c5_required_bytes (c : CpcCompressedState) :
    getRequiredSerializedBytes c =
        some (4 * (preIntsSpec (getFormat c) + c.CsvLengthInts + c.CwLengthInts)) ∧
      (getFormat c = CpcFormatSparceHybridHip → c.CsvLengthInts = 4 →
        c.CwLengthInts = 0 → getRequiredSerializedBytes c = some 48) := by
  refine ⟨getRequiredSerializedBytes_eq c, fun hf h4 h0 => ?_⟩
  rw [getRequiredSerializedBytes_eq c, hf, h4, h0]
  rfl

/-- Claim C10: `getFormat` always lands in 0..7, the eight-entry
`preIntsDefs` lookup succeeds, and `getRequiredSerializedBytes` never hits
the out-of-bounds panic. -/
theorem cpc_c10_format_in_bounds (c : CpcCompressedState) :
    getFormat c < 8 ∧ (getDefinedPreInts (getFormat c)).isSome = true ∧
      (getRequiredSerializedBytes c).isSome = true := by
  refine ⟨getFormat_lt_eight c, getDefinedPreInts_getFormat_isSome c, ?_⟩
  rw [getRequiredSerializedBytes_eq c]
  rfl

/-- A PINNED_SLIDING_MERGED_NOSV image (ordinal 4) whose preamble passes
the low-preamble and compressed checks. -/
def imgPinnedSliding : CpcImage :=
  { loPreambleOk := true
    compressedFlag := true
    lgK := 10
    seedHash := 0
    fmtOrd := 4
    numCouponsWord := 1
    svLengthWord := 0
    kxpBits := 0
    hipAccumBits := 0
    svWords := []
    capacity := 64 }

/-- Claim C3, counterexample: a well-preambled compressed image with format
ordinal 4 (PINNED_SLIDING_MERGED_NOSV) drives `importFromMemory` into the
`default: panic("not implemented")` arm. -/
theorem cpc_c3_counterexample :
    importFromMemory imgPinnedSliding = ImportResult.panics := by
  decide

/-- Claim C3, amended: `importFromMemory` panics exactly on the images that
pass the low-preamble and compressed checks and carry a PINNED_SLIDING_*
format ordinal (4..7); for ordinals 0..3 it returns a state or an error. -/
theorem cpc_c3_panics_iff (img : CpcImage) :
    importFromMemory img = ImportResult.panics ↔
      (checkLoPreamble img = true ∧ isCompressed img = true ∧
        4 ≤ getFormatOrdinal img) := by
  have h8 : getFormatOrdinal img < 8 := Nat.mod_lt _ (by norm_num)
  unfold importFromMemory
  by_cases h1 : checkLoPreamble img = true
  · by_cases h2 : isCompressed img = true
    · simp only [h1, h2, not_true, if_false, true_and]
      interval_cases ho : getFormatOrdinal img <;>
        norm_num [CpcformatEmptyMerged, CpcFormatEmptyHip,
          CpcFormatSparseHybridMerged, CpcFormatSparceHybridHip] <;>
        first
          | (simp only [getRequiredSerializedBytes_eq]; split_ifs <;> simp)
          | (split_ifs <;> simp)
    · simp [h1, h2]
  · simp [h1]

/-- A state whose stored seed hash is 1 (for claim C4). -/
def c4stateA : CpcCompressedState := { NewCpcCompressedState 10 0 with SeedHash := 1 }

/-- A state identical to `c4stateA` but with stored seed hash 2. -/
def c4stateB : CpcCompressedState := { NewCpcCompressedState 10 0 with SeedHash := 2 }

/-- The sketch skeleton `uncompress` produces from both `c4stateA` and
`c4stateB` under the constant offset function and seed 0. -/
def c4sketch : CpcSketch :=
  { lgK := 10
    seed := 0
    numCoupons := 0
    windowOffset := 0
    fiCol := 0
    mergeFlag := false
    kxp := float64OfPow2 10
    hipEstAccum := 0
    slidingWindow := none
    pairTable := none }

/-- Claim C4: `uncompress` succeeds on two states that agree everywhere
except in `SeedHash` (1 vs 2), with the same caller seed 0 — the caller
seed's hash cannot match both stored values, so `uncompress` succeeds on a
state whose stored seed hash disagrees with the seed: the seed-hash
comparison (`ThetaUtil.checkSeedHashes` in the quoted reference) is
commented out in the source. -/
theorem cpc_c4_seed_mismatch_succeeds :
    uncompress (fun _ _ => 0) c4stateA 0 = Except.ok c4sketch ∧
      uncompress (fun _ _ => 0) c4stateB 0 = Except.ok c4sketch ∧
      c4stateA.SeedHash ≠ c4stateB.SeedHash := by
  refine ⟨rfl, rfl, by decide⟩

/-- `uncompress` performs no seed-hash check at all: its result is
independent of the stored `SeedHash`, and it always succeeds. -/
theorem cpc_c4_no_seed_check (dco : Int → Nat → Int) (c : CpcCompressedState)
    (seed : Nat) (h : Int) :
    uncompress dco c seed = uncompress dco { c with SeedHash := h } seed ∧
      ∃ sk, uncompress dco c seed = Except.ok sk :=
  ⟨rfl, _, rfl⟩

/-- Claim C6: whenever `uncompress` succeeds, the returned sketch's
`numCoupons`, `windowOffset`, `fiCol`, `mergeFlag`, `kxp` and
`hipEstAccum` come from the state (`windowOffset` being
`determineCorrectOffset(LgK, NumCoupons)`, the function passed as `dco`),
and `slidingWindow` and `pairTable` are left unpopulated. -/
theorem cpc_c6_uncompress_fields (dco : Int → Nat → Int)
    (c : CpcCompressedState) (seed : Nat) (sk : CpcSketch)
    (h : uncompress dco c seed = Except.ok sk) :
    sk.numCoupons = c.NumCoupons ∧ sk.windowOffset = getWindowOffset dco c ∧
      sk.windowOffset = dco c.LgK c.NumCoupons ∧ sk.fiCol = c.FiCol ∧
      sk.mergeFlag = c.MergeFlag ∧ sk.kxp = c.Kxp ∧
      sk.hipEstAccum = c.HipEstAccum ∧ sk.slidingWindow = none ∧
      sk.pairTable = none := by
  unfold uncompress NewCpcSketch at h
  injection h with h
  subst h
  exact ⟨rfl, rfl, rfl, rfl, rfl, rfl, rfl, rfl, rfl⟩

/-- A concrete offset function for the C6 witness. -/
def c6dco : Int → Nat → Int := fun lgK numCoupons => lgK + numCoupons

/-- A concrete populated state for the C6 witness. -/
def c6state : CpcCompressedState :=
  { CsvIsValid := true
    WindowIsValid := false
    LgK := 11
    SeedHash := 9
    FiCol := 5
    MergeFlag := true
    NumCoupons := 7
    Kxp := 42
    HipEstAccum := 17
    NumCsv := 7
    CsvStream := [1, 2]
    CsvLengthInts := 2
    CwStream := []
    CwLengthInts := 0 }

/-- The sketch `uncompress c6dco c6state 3` returns. -/
def c6sketch : CpcSketch :=
  { lgK := 11
    seed := 3
    numCoupons := 7
    windowOffset := 18
    fiCol := 5
    mergeFlag := true
    kxp := 42
    hipEstAccum := 17
    slidingWindow := none
    pairTable := none }

/-- Claim C6, witness: the field-copy contract checked on a concrete
state. -/
theorem cpc_c6_uncompress_fields_witness :
    uncompress c6dco c6state 3 = Except.ok c6sketch ∧
      (c6sketch.numCoupons = c6state.NumCoupons ∧
        c6sketch.windowOffset = getWindowOffset c6dco c6state ∧
        c6sketch.windowOffset = c6dco c6state.LgK c6state.NumCoupons ∧
        c6sketch.fiCol = c6state.FiCol ∧
        c6sketch.mergeFlag = c6state.MergeFlag ∧ c6sketch.kxp = c6state.Kxp ∧
        c6sketch.hipEstAccum = c6state.HipEstAccum ∧
        c6sketch.slidingWindow = none ∧ c6sketch.pairTable = none) :=
  ⟨rfl, cpc_c6_uncompress_fields c6dco c6state 3 c6sketch rfl⟩

/-- Claim C7: a state imported under a SPARSE_HYBRID format (stored
ordinal 2 or 3) satisfies `NumCsv = NumCoupons`. -/
theorem cpc_c7_sparse_numCsv (img : CpcImage) (st : CpcCompressedState)
    (hord : getFormatOrdinal img = CpcFormatSparseHybridMerged ∨
      getFormatOrdinal img = CpcFormatSparceHybridHip)
    (hok : importFromMemory img = ImportResult.ok st) :
    st.NumCsv = (st.NumCoupons : Int) := by
  have hsmall : getNumCoupons img < 2 ^ 63 :=
    lt_of_lt_of_le (Nat.mod_lt _ (by norm_num)) (by norm_num)
  unfold importFromMemory at hok
  by_cases h1 : checkLoPreamble img = true
  · by_cases h2 : isCompressed img = true
    · rcases hord with ho | ho <;>
      · simp only [h1, h2, ho, not_true, if_false] at hok
        norm_num [CpcformatEmptyMerged, CpcFormatEmptyHip,
          CpcFormatSparseHybridMerged, CpcFormatSparceHybridHip,
          getRequiredSerializedBytes_eq] at hok
        split_ifs at hok with hc
        injection hok with h
        subst h
        exact intOfUInt64_of_lt hsmall
    · simp [h1, h2] at hok
  · simp [h1] at hok

/-- A SPARSE_HYBRID_HIP image (ordinal 3) for the C7 witness. -/
def imgSparseHip : CpcImage :=
  { loPreambleOk := true
    compressedFlag := true
    lgK := 10
    seedHash := 4
    fmtOrd := 3
    numCouponsWord := 2
    svLengthWord := 1
    kxpBits := 99
    hipAccumBits := 100
    svWords := [5]
    capacity := 40 }

/-- The state `importFromMemory imgSparseHip` returns. -/
def stSparseHip : CpcCompressedState :=
  { CsvIsValid := true
    WindowIsValid := false
    LgK := 10
    SeedHash := 4
    FiCol := 0
    MergeFlag := false
    NumCoupons := 2
    Kxp := 99
    HipEstAccum := 100
    NumCsv := 2
    CsvStream := [5]
    CsvLengthInts := 1
    CwStream := []
    CwLengthInts := 0 }

/-- Claim C7, witness: the SPARSE_HYBRID invariant checked on a concrete
successful import. -/
theorem cpc_c7_sparse_numCsv_witness :
    (getFormatOrdinal imgSparseHip = CpcFormatSparseHybridMerged ∨
        getFormatOrdinal imgSparseHip = CpcFormatSparceHybridHip) ∧
      importFromMemory imgSparseHip = ImportResult.ok stSparseHip ∧
      stSparseHip.NumCsv = (stSparseHip.NumCoupons : Int) :=
  ⟨by decide, by decide,
    cpc_c7_sparse_numCsv imgSparseHip stSparseHip (by decide) (by decide)⟩

end Cpc

namespace Frequencies

/-! ## Frequent-items sketch

The implementation file of the items sketch is code of this repository
that is not in the fragment (only its test file is), so the whole
component is modelled from the spec (§3.1 data model, §4.1 contract and
update algorithm).  Items enter through the nil-able interface the test
exercises (`*string`), modelled as `Option α`; the map is an association
list with unique keys, insertion-ordered.  The pluggable hasher only
chooses table placement, which the association-list model does not need,
so it is omitted. -/

/-- Modelled from the spec: the library minimum log map size (§6.3,
"typically 3"). -/
def _LG_MIN_MAP_SIZE : Nat := 3

/-- Errors surfaced by the frequent-items sketch (§7). -/
inductive FreqError where
  | invalidArgument
deriving DecidableEq, Repr

/-- Modelled from the spec: the essential state of the frequent-items
sketch (§3.1). -/
structure ItemsSketch (α : Type) where
  lgMaxMapSize : Nat
  lgCurMapSize : Nat
  counterMap : List (α × Int)
  offset : Int
  streamLength : Int
deriving DecidableEq, Repr

variable {α : Type} [DecidableEq α]

/-- Modelled from the spec: `new(lg_max_map_size, hasher)` fails with
`InvalidArgument` when `lg_max_map_size < _LG_MIN_MAP_SIZE`, else yields
the empty sketch at the minimum current size (§4.1). -/
def NewItemsSketchFromLgMax (α : Type) (lgMaxMapSize : Nat) :
    Except FreqError (ItemsSketch α) :=
  if lgMaxMapSize < _LG_MIN_MAP_SIZE then .error .invalidArgument
  else .ok
    { lgMaxMapSize := lgMaxMapSize
      lgCurMapSize := _LG_MIN_MAP_SIZE
      counterMap := []
      offset := 0
      streamLength := 0 }

/-- Count stored in the map for a key, `0` when absent. -/
def storedCount (sk : ItemsSketch α) (item : Option α) : Int :=
  match item with
  | none => 0
  | some a => (((sk.counterMap.find? fun p => decide (p.1 = a)).map Prod.snd).getD 0)

/-- Whether the map holds an entry for the item (the nil sentinel is never
stored). -/
def isPresent (sk : ItemsSketch α) (item : Option α) : Bool :=
  match item with
  | none => false
  | some a => (sk.counterMap.find? fun p => decide (p.1 = a)).isSome

/-- Add `w` to the count of key `a` (which is present). -/
def bumpCount (m : List (α × Int)) (a : α) (w : Int) : List (α × Int) :=
  m.map fun p => if p.1 = a then (p.1, p.2 + w) else p

/-- Insert `x` into an ascending list (insertion sort step). -/
def insertSorted (x : Int) : List Int → List Int
  | [] => [x]
  | y :: ys => if x ≤ y then x :: y :: ys else y :: insertSorted x ys

/-- Insertion sort of the counts, for the purge median. -/
def sortCounts : List Int → List Int
  | [] => []
  | x :: xs => insertSorted x (sortCounts xs)

/-- Modelled from the spec: the median count among all entries (§4.1 step
4); the middle element of the sorted counts. -/
def medianCount (counts : List Int) : Int :=
  let s := sortCounts counts
  s.getD (s.length / 2) 0

/-- Modelled from the spec: the purge step — subtract the median from
every entry, drop entries whose count becomes ≤ 0, add the median to
`offset` (§4.1 step 4). -/
def purge (sk : ItemsSketch α) : ItemsSketch α :=
  let med := medianCount (sk.counterMap.map Prod.snd)
  { sk with
    counterMap :=
      (sk.counterMap.map fun p => (p.1, p.2 - med)).filter fun p => decide (0 < p.2)
    offset := sk.offset + med }

/-- Modelled from the spec: `update_many(item, weight)` (§4.1).  A nil
item is a successful no-op; `weight < 1` is `InvalidArgument`; otherwise
the four-way algorithm runs, and `weight` is added to `stream_length`. -/
def UpdateMany (sk : ItemsSketch α) (item : Option α) (weight : Int) :
    Except FreqError (ItemsSketch α) :=
  match item with
  | none => .ok sk
  | some a =>
    if weight < 1 then .error .invalidArgument
    else
      let sk1 := { sk with streamLength := sk.streamLength + weight }
      if (sk1.counterMap.find? fun p => decide (p.1 = a)).isSome then
        .ok { sk1 with counterMap := bumpCount sk1.counterMap a weight }
      else if 4 * sk1.counterMap.length < 3 * 2 ^ sk1.lgCurMapSize then
        .ok { sk1 with counterMap := sk1.counterMap ++ [(a, weight)] }
      else if sk1.lgCurMapSize < sk1.lgMaxMapSize then
        .ok { sk1 with
          lgCurMapSize := sk1.lgCurMapSize + 1
          counterMap := sk1.counterMap ++ [(a, weight)] }
      else
        .ok (purge { sk1 with counterMap := sk1.counterMap ++ [(a, weight)] })

/-- Modelled from the spec: `update(item)` is `update_many(item, 1)`. -/
def Update (sk : ItemsSketch α) (item : Option α) :
    Except FreqError (ItemsSketch α) :=
  UpdateMany sk item 1

/-- Modelled from the spec: `get_estimate(item)` → `stored(item)`; absent
items are not errors and yield 0 (§4.1, §7). -/
def GetEstimate (sk : ItemsSketch α) (item : Option α) : Except FreqError Int :=
  .ok (storedCount sk item)

/-- Modelled from the spec: `get_lower_bound(item)` → `stored(item)`. -/
def GetLowerBound (sk : ItemsSketch α) (item : Option α) : Except FreqError Int :=
  .ok (storedCount sk item)

/-- Modelled from the spec: `get_upper_bound(item)` → `stored(item) +
offset`. -/
def GetUpperBound (sk : ItemsSketch α) (item : Option α) : Except FreqError Int :=
  .ok (storedCount sk item + sk.offset)

/-- Modelled from the spec: `get_stream_length()`. -/
def GetStreamLength (sk : ItemsSketch α) : Int := sk.streamLength

/-- Modelled from the spec: `get_num_active_items()` → map size. -/
def GetNumActiveItems (sk : ItemsSketch α) : Nat := sk.counterMap.length

/-- Modelled from the spec: `is_empty()` → `num_active == 0`. -/
def IsEmpty (sk : ItemsSketch α) : Bool := sk.counterMap.length == 0

/-! ## Claim theorems for the frequent-items sketch -/

/-- Claim C8: updating with the nil sentinel succeeds and is a no-op:
`stream_length`, the counter map, `num_active_items` and `is_empty` are
all unchanged. -/
theorem freq_c8_nil_update_noop (β : Type) [DecidableEq β] (sk : ItemsSketch β) :
    ∃ sk2, Update sk (none : Option β) = Except.ok sk2 ∧
      GetStreamLength sk2 = GetStreamLength sk ∧
      sk2.counterMap = sk.counterMap ∧
      GetNumActiveItems sk2 = GetNumActiveItems sk ∧
      IsEmpty sk2 = IsEmpty sk :=
  ⟨sk, rfl, rfl, rfl, rfl, rfl⟩

/-- An absent item stores count 0. -/
theorem storedCount_of_not_present (sk : ItemsSketch α) (item : Option α)
    (h : isPresent sk item = false) : storedCount sk item = 0 := by
  cases item with
  | none => rfl
  | some a =>
    unfold isPresent at h
    unfold storedCount
    dsimp only at h ⊢
    cases hf : sk.counterMap.find? fun p => decide (p.1 = a) with
    | none => rfl
    | some p => rw [hf] at h; simp at h

/-- Claim C9: queries on an item absent from the counter map are not
errors: estimate and lower bound are 0, the upper bound is `0 + offset`,
and on a freshly constructed sketch the upper bound is 0. -/
theorem freq_c9_absent_item_queries (β : Type) [DecidableEq β]
    (sk sk0 : ItemsSketch β) (item : Option β) (lgMax : Nat)
    (habs : isPresent sk item = false)
    (hnew : NewItemsSketchFromLgMax β lgMax = Except.ok sk0) :
    GetEstimate sk item = Except.ok 0 ∧ GetLowerBound sk item = Except.ok 0 ∧
      GetUpperBound sk item = Except.ok (0 + sk.offset) ∧
      GetUpperBound sk0 item = Except.ok 0 := by
  have hz := storedCount_of_not_present sk item habs
  refine ⟨?_, ?_, ?_, ?_⟩
  · unfold GetEstimate
    rw [hz]
  · unfold GetLowerBound
    rw [hz]
  · unfold GetUpperBound
    rw [hz]
  · unfold NewItemsSketchFromLgMax at hnew
    split_ifs at hnew
    injection hnew with h
    subst h
    have h0 : storedCount (α := β)
        { lgMaxMapSize := lgMax, lgCurMapSize := _LG_MIN_MAP_SIZE,
          counterMap := [], offset := 0, streamLength := 0 } item = 0 := by
      cases item <;> rfl
    unfold GetUpperBound
    rw [h0]
    simp

/-- A fresh sketch over `Nat` for the C9 witness. -/
def freshNatSketch : ItemsSketch Nat :=
  { lgMaxMapSize := 3
    lgCurMapSize := 3
    counterMap := []
    offset := 0
    streamLength := 0 }

/-- Claim C9, witness: the absent-item query contract checked on a
concrete fresh sketch and the absent item 5. -/
theorem freq_c9_absent_item_queries_witness :
    isPresent freshNatSketch (some 5) = false ∧
      NewItemsSketchFromLgMax Nat 3 = Except.ok freshNatSketch ∧
      (GetEstimate freshNatSketch (some 5) = Except.ok 0 ∧
        GetLowerBound freshNatSketch (some 5) = Except.ok 0 ∧
        GetUpperBound freshNatSketch (some 5) =
          Except.ok (0 + freshNatSketch.offset) ∧
        GetUpperBound freshNatSketch (some 5) = Except.ok 0) :=
  ⟨rfl, rfl,
    freq_c9_absent_item_queries Nat freshNatSketch freshNatSketch (some 5) 3
      rfl rfl⟩

end Frequencies

end DataSketches
